import Mathlib

/-!
Shallow embedding of the azads Telegram ad-broadcaster (src/main.py,
src/database.py) for checking its natural-language specification.

The document database (MongoDB) is modelled as a structure of lists of
documents, one list per collection; `find_one` by user id is the first
matching element, `update_one` with `upsert=True` rewrites the first
matching document or appends a fresh one.  Python integers are `Int`
(the `%` on a positive modulus agrees with `Int.emod`), seconds are
`Nat`, and Python dictionary truthiness (empty mapping is falsy) is
modelled explicitly where the source relies on it.
-/

namespace AzAds

/-- Update the first element satisfying `p` by `f`, or append `mk` when
no element matches.  Mirrors MongoDB `update_one` with `upsert=True`. -/
def upsertBy (p : α → Bool) (f : α → α) (mk : α) : List α → List α
  | [] => [mk]
  | x :: xs => if p x then f x :: xs else x :: upsertBy p f mk xs

/-- Document of the `users` collection.  Fields the verified operations
touch; every optional field is absent (`none`) until first written. -/
structure UserDoc where
  user_id : Int
  ad_cycle_index : Option Int := none
  saved_messages_count : Option Int := none
  post_link : Option String := none
  saved_from_peer : Option String := none
  saved_msg_id : Option Int := none
  message_source : Option String := none
  schedule_enabled : Option Bool := none
  schedule_start_time : Option String := none
  schedule_end_time : Option String := none
  deriving Repr, DecidableEq

/-- Document of the `accounts` collection. -/
structure AccountDoc where
  user_id : Int
  phone_number : String := ""
  session_string : Option String := none
  deriving Repr, DecidableEq

/-- Document of the `broadcast_states` collection. -/
structure BroadcastStateDoc where
  user_id : Int
  running : Option Bool := none
  paused : Option Bool := none
  deriving Repr, DecidableEq

/-- Document of the `logger_status` collection. -/
structure LoggerStatusDoc where
  user_id : Int
  is_active : Option Bool := none
  is_started : Option Bool := none
  deriving Repr, DecidableEq

/-- Document of the `target_groups` and `forum_groups` collections. -/
structure GroupDoc where
  user_id : Int
  group_id : Int
  group_name : String := ""
  deriving Repr, DecidableEq

/-- Document of the `analytics` collection: cumulative per-user counters
plus the nested per-group and per-account (sent, failed) breakdowns. -/
structure AnalyticsDoc where
  user_id : Int
  total_sent : Nat := 0
  total_failed : Nat := 0
  total_broadcasts : Nat := 0
  total_cycles : Nat := 0
  vouch_successes : Nat := 0
  vouch_failures : Nat := 0
  groups : List (Int × Nat × Nat) := []
  accounts : List (Int × Nat × Nat) := []
  deriving Repr, DecidableEq

/-- Document of a collection whose contents the verified operations
never read (only delete by user id). -/
structure BasicDoc where
  user_id : Int
  deriving Repr, DecidableEq

/-- The document store: one list of documents per collection used by
`database.py`. -/
structure DB where
  users : List UserDoc := []
  accounts : List AccountDoc := []
  ad_pointers : List BasicDoc := []
  ad_delays : List BasicDoc := []
  group_msg_delays : List BasicDoc := []
  cycle_timeouts : List BasicDoc := []
  broadcast_states : List BroadcastStateDoc := []
  broadcast_logs : List BasicDoc := []
  broadcast_activity : List BasicDoc := []
  target_groups : List GroupDoc := []
  forum_groups : List GroupDoc := []
  logger_status : List LoggerStatusDoc := []
  logger_failures : List BasicDoc := []
  temp_data : List BasicDoc := []
  groups_cache : List BasicDoc := []
  analytics : List AnalyticsDoc := []
  deriving Repr, DecidableEq

/-- Find the first `users` document for a user id (`find_one`). -/
def DB.findUser (db : DB) (user_id : Int) : Option UserDoc :=
  db.users.find? (fun d => d.user_id == user_id)

/-- database.py `get_user_saved_messages_count` (lines 437-449): the
stored `saved_messages_count` with default 3, where a non-positive
stored value is replaced by the default 3. -/
def get_user_saved_messages_count (db : DB) (user_id : Int) : Int :=
  match db.findUser user_id with
  | some user =>
      let count := user.saved_messages_count.getD 3
      if count ≤ 0 then 3 else count
  | none => 3

/-- database.py `get_current_ad_cycle` (lines 1293-1300): the stored
`ad_cycle_index` with default 0. -/
def get_current_ad_cycle (db : DB) (user_id : Int) : Int :=
  match db.findUser user_id with
  | some user => user.ad_cycle_index.getD 0
  | none => 0

/-- database.py `update_ad_cycle` (lines 1302-1322): advance the stored
rotation pointer to `(current + 1) % count` by an upsert on `users`. -/
def update_ad_cycle (db : DB) (user_id : Int) : DB :=
  let user_msg_count := get_user_saved_messages_count db user_id
  if user_msg_count == 0 then db
  else
    let current_cycle := get_current_ad_cycle db user_id
    let next_cycle := (current_cycle + 1) % user_msg_count
    let users := upsertBy (fun d => d.user_id == user_id)
      (fun d => { d with ad_cycle_index := some next_cycle })
      { user_id := user_id, ad_cycle_index := some next_cycle } db.users
    { db with users := users }

/-- database.py `reset_ad_cycle` (lines 651-663): set the rotation
pointer back to 0 by an upsert on `users`. -/
def reset_ad_cycle (db : DB) (user_id : Int) : DB :=
  let users := upsertBy (fun d => d.user_id == user_id)
    (fun d => { d with ad_cycle_index := some 0 })
    { user_id := user_id, ad_cycle_index := some 0 } db.users
  { db with users := users }

lemma find?_upsertBy (p : α → Bool) (f : α → α) (mk : α) (l : List α)
    (hmk : p mk = true) (hf : ∀ a, p a = true → p (f a) = true) :
    (upsertBy p f mk l).find? p = some ((l.find? p).elim mk f) := by
  induction l with
  | nil => simp [upsertBy, List.find?, hmk]
  | cons x xs ih =>
      by_cases hx : p x = true
      · simp [upsertBy, hx, List.find?, hf x hx]
      · simp only [Bool.not_eq_true] at hx
        simp [upsertBy, hx, List.find?, ih]

lemma findUser_update_ad_cycle (db : DB) (user_id : Int) :
    (update_ad_cycle db user_id).findUser user_id =
      some (((db.findUser user_id).elim
        { user_id := user_id,
          ad_cycle_index := some ((get_current_ad_cycle db user_id + 1) %
            get_user_saved_messages_count db user_id) }
        (fun d => { d with ad_cycle_index := some ((get_current_ad_cycle db user_id + 1) %
            get_user_saved_messages_count db user_id) }))) := by
  have hcount : ¬ (get_user_saved_messages_count db user_id == 0) = true := by
    unfold get_user_saved_messages_count
    cases db.findUser user_id with
    | none => decide
    | some u =>
        simp only [beq_iff_eq]
        split <;> omega
  unfold update_ad_cycle DB.findUser
  simp only [hcount, if_false, Bool.not_eq_true]
  exact find?_upsertBy _ _ _ _ (by simp) (fun a ha => ha)

lemma saved_messages_count_update_ad_cycle (db : DB) (user_id : Int) :
    get_user_saved_messages_count (update_ad_cycle db user_id) user_id =
      get_user_saved_messages_count db user_id := by
  unfold get_user_saved_messages_count
  rw [findUser_update_ad_cycle]
  cases h : db.findUser user_id with
  | none => simp [get_user_saved_messages_count, h]
  | some u => simp [get_user_saved_messages_count, h]

lemma get_current_ad_cycle_update (db : DB) (user_id : Int) :
    get_current_ad_cycle (update_ad_cycle db user_id) user_id =
      (get_current_ad_cycle db user_id + 1) % get_user_saved_messages_count db user_id := by
  conv_lhs => unfold get_current_ad_cycle
  rw [findUser_update_ad_cycle]
  cases h : db.findUser user_id with
  | none => simp [h]
  | some u => simp [h]

lemma saved_messages_count_iterate (db : DB) (user_id : Int) (n : Nat) :
    get_user_saved_messages_count ((fun d => update_ad_cycle d user_id)^[n] db) user_id =
      get_user_saved_messages_count db user_id := by
  induction n with
  | zero => rfl
  | succ k ih =>
      rw [Function.iterate_succ_apply']
      rw [saved_messages_count_update_ad_cycle, ih]

/-- C8: starting from rotation pointer 0 with a fixed configured
saved-message rotation count, N applications of the cycle-advance
operation `update_ad_cycle` leave the stored pointer equal to
`N mod count` where `count = get_user_saved_messages_count`. -/
theorem rotation_pointer_after_n_cycles (db : DB) (user_id : Int) (N : Nat)
    (h0 : get_current_ad_cycle db user_id = 0) :
    get_current_ad_cycle ((fun d => update_ad_cycle d user_id)^[N] db) user_id =
      (N : Int) % get_user_saved_messages_count db user_id := by
  induction N with
  | zero => simp [h0]
  | succ n ih =>
      rw [Function.iterate_succ_apply', get_current_ad_cycle_update,
        saved_messages_count_iterate, ih, Int.emod_add_emod]
      push_cast
      ring_nf

/-- Concrete database used to instantiate the rotation-pointer theorem:
user 1 with pointer 0 and rotation count 3. -/
def dbC8 : DB :=
  { users := [{ user_id := 1, ad_cycle_index := some 0, saved_messages_count := some 3 }] }

/-- Witness for C8: five completed cycles on a count-3 configuration
leave the pointer at 5 mod 3 = 2. -/
theorem rotation_pointer_after_n_cycles_witness :
    get_current_ad_cycle dbC8 1 = 0 ∧
    get_current_ad_cycle ((fun d => update_ad_cycle d 1)^[5] dbC8) 1 =
      (5 : Int) % get_user_saved_messages_count dbC8 1 :=
  ⟨by decide, rotation_pointer_after_n_cycles dbC8 1 5 (by decide)⟩

/-- C10: for every database state, `get_user_saved_messages_count`
returns an integer at least 1 (missing, zero or negative stored values
are replaced by the default 3), so the modulus used by the
rotation-pointer update `update_ad_cycle` is never zero. -/
theorem saved_messages_count_positive (db : DB) (user_id : Int) :
    1 ≤ get_user_saved_messages_count db user_id ∧
    get_user_saved_messages_count db user_id ≠ 0 := by
  unfold get_user_saved_messages_count
  cases db.findUser user_id with
  | none => exact ⟨by norm_num, by norm_num⟩
  | some u =>
      constructor
      · dsimp only
        split <;> omega
      · dsimp only
        split <;> omega

/-- Projection of a broadcast-state document as the cycle loop and the
command handlers read it: `state.get("running", False)` and
`state.get("paused", False)` applied to the result of
database.py `get_broadcast_state` (lines 700-707), which returns the
stored document or the default dictionary with both flags false. -/
structure BroadcastState where
  running : Bool
  paused : Bool
  deriving Repr, DecidableEq

/-- database.py `get_broadcast_state` (lines 700-707) combined with the
call sites reading of the `running` and `paused` keys with default
false. -/
def get_broadcast_state (db : DB) (user_id : Int) : BroadcastState :=
  match db.broadcast_states.find? (fun d => d.user_id == user_id) with
  | some doc => { running := doc.running.getD false, paused := doc.paused.getD false }
  | none => { running := false, paused := false }

/-- database.py `set_broadcast_state` (lines 709-720): upsert of both
flags on the `broadcast_states` collection. -/
def set_broadcast_state (db : DB) (user_id : Int) (running paused : Bool) : DB :=
  let states := upsertBy (fun d => d.user_id == user_id)
    (fun d => { d with running := some running, paused := some paused })
    { user_id := user_id, running := some running, paused := some paused }
    db.broadcast_states
  { db with broadcast_states := states }

lemma get_set_broadcast_state (db : DB) (user_id : Int) (r p : Bool) :
    get_broadcast_state (set_broadcast_state db user_id r p) user_id =
      { running := r, paused := p } := by
  unfold get_broadcast_state set_broadcast_state
  dsimp only
  have hfind := find?_upsertBy (fun (d : BroadcastStateDoc) => d.user_id == user_id)
    (fun d => { d with running := some r, paused := some p })
    { user_id := user_id, running := some r, paused := some p }
    db.broadcast_states (by simp) (fun a ha => ha)
  rw [hfind]
  cases db.broadcast_states.find? (fun d => d.user_id == user_id) <;> simp

lemma get_broadcast_state_reset_ad_cycle (db : DB) (user_id uid : Int) :
    get_broadcast_state (reset_ad_cycle db user_id) uid = get_broadcast_state db uid := rfl

/-- In-memory process state relevant to start and stop requests: the
document store plus the `user_tasks` map, modelled as the list of user
ids that currently own a broadcast task. -/
structure Sys where
  db : DB
  user_tasks : List Int := []
  deriving Repr, DecidableEq

/-- main.py `stop_broadcast_task` (lines 1085-1113): when no running
state is recorded, return false without touching anything; otherwise
reset the rotation pointer, cancel and drop the task map entry when one
exists, write `running=false` (the default `paused=false` is written
with it), and return true. -/
def stop_broadcast_task (s : Sys) (uid : Int) : Sys × Bool :=
  let state := get_broadcast_state s.db uid
  if !state.running then (s, false)
  else
    let db1 := reset_ad_cycle s.db uid
    let tasks1 := s.user_tasks.erase uid
    let db2 := set_broadcast_state db1 uid false false
    ({ db := db2, user_tasks := tasks1 }, true)

/-- main.py `stop_command` (lines 2246-2261): the /stop handler writes
`running=false, paused=false` first and then calls
`stop_broadcast_task`; the boolean reports whether a broadcast was
stopped (the text of the two replies is not modelled). -/
def stop_command (s : Sys) (uid : Int) : Sys × Bool :=
  let s1 : Sys := { s with db := set_broadcast_state s.db uid false false }
  stop_broadcast_task s1 uid

/-- main.py `stop_broadcast_callback` (lines 5601-5635): the
stop-broadcast button handler just calls `stop_broadcast_task` and
reports its result. -/
def stop_broadcast_callback (s : Sys) (uid : Int) : Sys × Bool :=
  stop_broadcast_task s uid

lemma stop_broadcast_task_not_running (s : Sys) (uid : Int) :
    (get_broadcast_state ((stop_broadcast_task s uid).1).db uid).running = false := by
  unfold stop_broadcast_task
  dsimp only
  split
  · next h => simpa using h
  · next h => rw [get_set_broadcast_state]

/-- C6: after a stop request completes, via the /stop command or the
stop-broadcast button, the persisted broadcast state records
`running = false`, whether or not a broadcast task or a running state
existed at request time. -/
theorem running_false_after_stop (s : Sys) (uid : Int) :
    (get_broadcast_state ((stop_command s uid).1).db uid).running = false ∧
    (get_broadcast_state ((stop_broadcast_callback s uid).1).db uid).running = false := by
  refine ⟨?_, ?_⟩
  · unfold stop_command
    exact stop_broadcast_task_not_running _ uid
  · unfold stop_broadcast_callback
    exact stop_broadcast_task_not_running s uid

/-- Split a character list on a separator, keeping empty segments,
mirroring `str.split` on a single character. -/
def splitOnChar (sep : Char) : List Char → List (List Char)
  | [] => [[]]
  | c :: cs =>
      let r := splitOnChar sep cs
      if c == sep then [] :: r
      else match r with
        | [] => [[c]]
        | x :: xs => (c :: x) :: xs

/-- Read a strptime numeric field: one or two decimal digits. -/
def digitsToNat? (l : List Char) : Option Nat :=
  if l.isEmpty || 2 < l.length then none
  else if l.all (fun c => c.isDigit) then
    some (l.foldl (fun acc c => acc * 10 + (c.toNat - 48)) 0)
  else none

/-- Parse a wall-clock string in the strptime format used by
`is_within_schedule`, `"%I:%M %p"` (hour 1-12, minute 0-59, AM or PM,
case-insensitive), into seconds since midnight.  Returns `none` exactly
when strptime would raise `ValueError`. -/
def parseTime12h (s : String) : Option Nat :=
  match splitOnChar ' ' s.toList with
  | [hm, ap] =>
      match splitOnChar ':' hm with
      | [hs, ms] =>
          match digitsToNat? hs, digitsToNat? ms with
          | some h, some m =>
              if 1 ≤ h ∧ h ≤ 12 ∧ m ≤ 59 then
                let apU := ap.map Char.toUpper
                if apU == "AM".toList then some (((if h == 12 then 0 else h) * 3600) + m * 60)
                else if apU == "PM".toList then some (((if h == 12 then 12 else h + 12) * 3600) + m * 60)
                else none
              else none
          | _, _ => none
      | _ => none
  | _ => none

/-- main.py `is_within_schedule` (lines 140-186), with the current IST
wall-clock time-of-day passed as seconds since midnight.  Disabled
schedules and parse errors (the except branch) report within-schedule;
both window boundaries are inclusive.  The human-readable message of
the source return value is not modelled. -/
def is_within_schedule (user_data : UserDoc) (nowSec : Nat) : Bool :=
  if !(user_data.schedule_enabled.getD false) then true
  else
    match parseTime12h (user_data.schedule_start_time.getD "12:00 AM"),
          parseTime12h (user_data.schedule_end_time.getD "11:59 PM") with
    | some start_time, some end_time =>
        if start_time ≤ end_time then
          decide (start_time ≤ nowSec ∧ nowSec ≤ end_time)
        else
          decide (nowSec ≥ start_time ∨ nowSec ≤ end_time)
    | _, _ => true

/-- Action taken at the top of each broadcast cycle iteration by the
schedule check of `run_broadcast` (main.py lines 1744-1758): proceed
with the cycle, or log a pause notice, sleep 300 seconds and re-check. -/
inductive ScheduleGateAction where
  | runCycle
  | pauseAndRecheck (sleepSeconds : Nat)
  deriving Repr, DecidableEq

/-- main.py `run_broadcast` lines 1744-1758: inside the while loop the
engine evaluates `is_within_schedule` on the freshly loaded user
document and, when outside the window, sleeps 300 seconds and
continues the loop instead of running a cycle. -/
def schedule_gate (user_data : UserDoc) (nowSec : Nat) : ScheduleGateAction :=
  if is_within_schedule user_data nowSec then .runCycle else .pauseAndRecheck 300

/-- User document with the schedule of claim C7 enabled: window from
8:00 AM to 8:00 PM IST. -/
def userC7 : UserDoc :=
  { user_id := 1, schedule_enabled := some true,
    schedule_start_time := some "8:00 AM", schedule_end_time := some "8:00 PM" }

/-- C7: with the 8:00 AM - 8:00 PM window enabled, the cycle-top
schedule check treats both boundaries as inclusive: 7:59 AM pauses
(sleep 300 s and re-check), 8:00 AM and 8:00 PM run the cycle, and
8:01 PM pauses again. -/
theorem schedule_boundaries_inclusive :
    schedule_gate userC7 (7 * 3600 + 59 * 60) = .pauseAndRecheck 300 ∧
    schedule_gate userC7 (8 * 3600) = .runCycle ∧
    schedule_gate userC7 (20 * 3600) = .runCycle ∧
    schedule_gate userC7 (20 * 3600 + 60) = .pauseAndRecheck 300 := by
  refine ⟨?_, ?_, ?_, ?_⟩ <;> decide

/-- Python truthiness of an optional integer argument, as used by the
`if group_id:` and `if account_id:` guards of
`increment_broadcast_stats`: `None` and `0` are falsy. -/
def pyTruthyOptInt : Option Int → Bool
  | none => false
  | some v => !(v == 0)

/-- Apply one `$inc` of a nested `groups.<id>` or `accounts.<id>`
(sent, failed) pair, creating the entry from zero when absent. -/
def bumpPair (success : Bool) (l : List (Int × Nat × Nat)) (k : Int) : List (Int × Nat × Nat) :=
  upsertBy (fun e => e.1 == k)
    (fun e => if success then (e.1, e.2.1 + 1, e.2.2) else (e.1, e.2.1, e.2.2 + 1))
    (if success then (k, 1, 0) else (k, 0, 1)) l

/-- The single `$inc` update document built by database.py
`increment_broadcast_stats` (lines 867-889), applied to an analytics
document (a missing document is the zero document, matching upsert
semantics of `$inc`). -/
def applyStatsInc (success : Bool) (group_id account_id : Option Int) (d : AnalyticsDoc) : AnalyticsDoc :=
  { d with
    total_sent := d.total_sent + (if success then 1 else 0),
    total_failed := d.total_failed + (if success then 0 else 1),
    total_broadcasts := d.total_broadcasts + 1,
    groups := if pyTruthyOptInt group_id then bumpPair success d.groups (group_id.getD 0) else d.groups,
    accounts := if pyTruthyOptInt account_id then bumpPair success d.accounts (account_id.getD 0) else d.accounts }

/-- database.py `increment_broadcast_stats` (lines 867-889): upsert the
per-user analytics document with the increments of `applyStatsInc`. -/
def increment_broadcast_stats (db : DB) (user_id : Int) (success : Bool)
    (group_id account_id : Option Int) : DB :=
  let docs := upsertBy (fun d => d.user_id == user_id)
    (applyStatsInc success group_id account_id)
    (applyStatsInc success group_id account_id { user_id := user_id })
    db.analytics
  { db with analytics := docs }

/-- Counter view returned by database.py `get_user_analytics`
(lines 844-866): the stored document, or the all-zero default. -/
structure AnalyticsView where
  total_broadcasts : Nat
  total_sent : Nat
  total_failed : Nat
  total_cycles : Nat
  vouch_successes : Nat
  vouch_failures : Nat
  deriving Repr, DecidableEq

/-- database.py `get_user_analytics` (lines 844-866). -/
def get_user_analytics (db : DB) (user_id : Int) : AnalyticsView :=
  match db.analytics.find? (fun d => d.user_id == user_id) with
  | some s =>
      { total_broadcasts := s.total_broadcasts, total_sent := s.total_sent,
        total_failed := s.total_failed, total_cycles := s.total_cycles,
        vouch_successes := s.vouch_successes, vouch_failures := s.vouch_failures }
  | none =>
      { total_broadcasts := 0, total_sent := 0, total_failed := 0,
        total_cycles := 0, vouch_successes := 0, vouch_failures := 0 }

lemma get_user_analytics_increment (db : DB) (user_id : Int) (success : Bool)
    (group_id account_id : Option Int) :
    get_user_analytics (increment_broadcast_stats db user_id success group_id account_id) user_id =
      { get_user_analytics db user_id with
        total_sent := (get_user_analytics db user_id).total_sent + (if success then 1 else 0),
        total_failed := (get_user_analytics db user_id).total_failed + (if success then 0 else 1),
        total_broadcasts := (get_user_analytics db user_id).total_broadcasts + 1 } := by
  unfold get_user_analytics increment_broadcast_stats
  dsimp only
  have hfind := find?_upsertBy (fun (d : AnalyticsDoc) => d.user_id == user_id)
    (applyStatsInc success group_id account_id)
    (applyStatsInc success group_id account_id { user_id := user_id })
    db.analytics (by simp [applyStatsInc]) (fun x hx => hx)
  rw [hfind]
  cases db.analytics.find? (fun d => d.user_id == user_id) <;> simp [applyStatsInc]

/-- One topic descriptor of a forum group entry. -/
structure TopicInfo where
  id : Int
  title : String
  closed : Bool
  deriving Repr, DecidableEq

/-- One entry of the working-group lists built by the pre-broadcast
analysis in `run_broadcast`: the dictionary with keys id, title,
is_forum and topics. -/
structure GroupEntry where
  id : Int
  title : String
  is_forum : Bool
  topics : List TopicInfo
  deriving Repr, DecidableEq

/-- Result the Telegram provider produces for one forward to one forum
topic inside the per-topic try of `run_broadcast`. -/
inductive TopicSendResult where
  | sent
  | failedSend (msg : String)
  deriving Repr, DecidableEq

/-- Result the provider produces for the send block of one group inside
a broadcast cycle, matching the except-chain of `run_broadcast`
(main.py lines 1777-2044): message preparation skipped the group,
`get_entity` failed, the sends ran (with per-topic results for forums),
a pyrogram `FloodWait`, a telethon `RPCError`, or any other exception.
The `floodWait` case embeds the `except FloodWait` branch as written,
but that branch is dead for these sends: every raiser in the try block
is a telethon `TelegramClient`, and a telethon rate limit is a
`FloodWaitError`, a subclass of the telethon `RPCError` imported at
main.py line 32 — it therefore arrives here as the `rpcError` case. -/
inductive SendOutcome where
  | prepSkip
  | entityError (msg : String)
  | sendOk (topicResults : List TopicSendResult)
  | floodWait (value : Nat)
  | rpcError (msg : String)
  | otherError (msg : String)
  deriving Repr, DecidableEq

/-- Mutable state of one account inside one broadcast cycle: the local
sent/failed counters of `run_broadcast`, the document store, the
mutable working-group list of this account, and the trace of
`asyncio.sleep` durations in seconds. -/
structure CycleState where
  sent_count : Nat
  failed_count : Nat
  db : DB
  working : List GroupEntry
  sleeps : List Nat
  deriving Repr, DecidableEq

/-- Python lowercasing of an error message, as a character list. -/
def lowerChars (s : String) : List Char :=
  s.toList.map Char.toLower

/-- Containment of a character list at any position, mirroring Python
`sub in s`. -/
def charsIn (needle : List Char) : List Char → Bool
  | [] => needle.isEmpty
  | c :: cs => needle.isPrefixOf (c :: cs) || charsIn needle cs

/-- Python `sub in s` on a lowercased message. -/
def strIn (needle : String) (hay : List Char) : Bool :=
  charsIn needle.toList hay

/-- main.py line 2017: the substrings whose presence in a lowercased
error message makes the generic exception handler treat the failure as
permanent. -/
def permanentErrorKeywords : List String :=
  ["banned", "forbidden", "kicked", "rights", "not enough"]

/-- main.py line 2017: `is_permanent = any(k in err for k in [...])`. -/
def isPermanentErr (err : List Char) : Bool :=
  permanentErrorKeywords.any (fun k => strIn k err)

/-- Per-topic send of the forum branch of `run_broadcast` (main.py
lines 1844-1884): closed topics are skipped, a successful forward
increments the sent counter and the analytics sent counter and sleeps
the group-message delay, a failed topic send only sleeps 2 seconds
(the local topics_failed counter is not part of the cycle state). -/
def processTopic (uid : Int) (group_msg_delay : Nat) (st : CycleState)
    (pr : TopicInfo × TopicSendResult) : CycleState :=
  if pr.1.closed then st
  else match pr.2 with
  | .sent =>
      { st with sent_count := st.sent_count + 1,
                db := increment_broadcast_stats st.db uid true none none,
                sleeps := st.sleeps ++ [group_msg_delay] }
  | .failedSend _ => { st with sleeps := st.sleeps ++ [2] }

/-- Effect of one send attempt of `run_broadcast` on the cycle state
(main.py lines 1769-2044): the try body for one group of the working
set, followed by the except chain that classifies the outcome.
Non-forum success forwards once, counts it, updates analytics and
sleeps the group-message delay; forum success runs the per-topic loop
and then sleeps the group-message delay; a FloodWait counts as failed
and sleeps the signalled duration plus 2 seconds; an RPCError counts as
failed and explicitly keeps the group; any other exception counts as
failed and removes the group from the working set exactly when the
lowercased message contains one of the permanent keywords. -/
def processGroupSend (uid : Int) (group_msg_delay : Nat) (st : CycleState)
    (g : GroupEntry) (out : SendOutcome) : CycleState :=
  match out with
  | .prepSkip => st
  | .entityError _ => { st with failed_count := st.failed_count + 1 }
  | .sendOk topicResults =>
      if g.is_forum && !g.topics.isEmpty then
        let st1 := (g.topics.zip topicResults).foldl (processTopic uid group_msg_delay) st
        { st1 with sleeps := st1.sleeps ++ [group_msg_delay] }
      else
        let st1 := { st with sent_count := st.sent_count + 1,
                             db := increment_broadcast_stats st.db uid true none none }
        { st1 with sleeps := st1.sleeps ++ [group_msg_delay] }
  | .floodWait value =>
      let wait_time := if value == 0 then 1 else value
      { st with failed_count := st.failed_count + 1,
                sleeps := st.sleeps ++ [wait_time + 2] }
  | .rpcError _ => { st with failed_count := st.failed_count + 1 }
  | .otherError msg =>
      let err := lowerChars msg
      let st1 := { st with failed_count := st.failed_count + 1 }
      if isPermanentErr err then { st1 with working := st1.working.erase g } else st1

/-- One account pass of a broadcast cycle: the for-loop of
`run_broadcast` over the snapshot `working_groups[:]` of this account,
each group paired with the outcome the provider produced for it. -/
def runAccountCycle (uid : Int) (group_msg_delay : Nat) (st : CycleState)
    (attempts : List (GroupEntry × SendOutcome)) : CycleState :=
  attempts.foldl (fun s pr => processGroupSend uid group_msg_delay s pr.1 pr.2) st

lemma total_failed_processTopic (uid : Int) (gmd : Nat) (st : CycleState)
    (pr : TopicInfo × TopicSendResult) :
    (get_user_analytics (processTopic uid gmd st pr).db uid).total_failed =
      (get_user_analytics st.db uid).total_failed := by
  obtain ⟨t, r⟩ := pr
  unfold processTopic
  dsimp only
  split
  · rfl
  · cases r with
    | sent =>
        dsimp only
        rw [get_user_analytics_increment]
        simp
    | failedSend m => rfl

lemma total_failed_topicFold (uid : Int) (gmd : Nat)
    (l : List (TopicInfo × TopicSendResult)) : ∀ st : CycleState,
    (get_user_analytics ((l.foldl (processTopic uid gmd) st)).db uid).total_failed =
      (get_user_analytics st.db uid).total_failed := by
  induction l with
  | nil => intro st; rfl
  | cons hd tl ih =>
      intro st
      rw [List.foldl_cons, ih, total_failed_processTopic]

/-- Amended C1: a successful forward increments the local sent counter
and the analytics total_sent by 1, but a failed send attempt only
increments the in-memory failed counter of the cycle; no per-attempt
outcome ever changes the analytics total_failed (that counter is only
incremented by the top-level broadcast-failure handler of
`run_broadcast`). -/
theorem send_attempt_stats_accounting (uid : Int) (gmd : Nat) (st : CycleState)
    (g : GroupEntry) :
    (∀ out : SendOutcome,
      (get_user_analytics (processGroupSend uid gmd st g out).db uid).total_failed =
        (get_user_analytics st.db uid).total_failed)
    ∧ (g.is_forum = false →
        ∀ tr, (processGroupSend uid gmd st g (.sendOk tr)).sent_count = st.sent_count + 1 ∧
          (get_user_analytics (processGroupSend uid gmd st g (.sendOk tr)).db uid).total_sent =
            (get_user_analytics st.db uid).total_sent + 1)
    ∧ (∀ msg value,
        (processGroupSend uid gmd st g (.entityError msg)).failed_count = st.failed_count + 1 ∧
        (processGroupSend uid gmd st g (.floodWait value)).failed_count = st.failed_count + 1 ∧
        (processGroupSend uid gmd st g (.rpcError msg)).failed_count = st.failed_count + 1 ∧
        (processGroupSend uid gmd st g (.otherError msg)).failed_count = st.failed_count + 1) := by
  refine ⟨?_, ?_, ?_⟩
  · intro out
    cases out with
    | prepSkip => rfl
    | entityError m => rfl
    | sendOk tr =>
        unfold processGroupSend
        dsimp only
        split
        · exact total_failed_topicFold uid gmd (g.topics.zip tr) st
        · rw [get_user_analytics_increment]
          simp
    | floodWait v => rfl
    | rpcError m => rfl
    | otherError m =>
        unfold processGroupSend
        dsimp only
        split <;> rfl
  · intro hng tr
    unfold processGroupSend
    dsimp only
    split
    · next hcond => rw [hng] at hcond; simp at hcond
    · refine ⟨rfl, ?_⟩
      rw [get_user_analytics_increment]
      simp
  · intro msg value
    refine ⟨rfl, rfl, rfl, ?_⟩
    unfold processGroupSend
    dsimp only
    split <;> rfl

/-- Non-forum group entries of the end-to-end scenario of claim C1. -/
def g1 : GroupEntry := { id := 101, title := "open group", is_forum := false, topics := [] }

/-- Second group of the scenario, the one whose sends fail. -/
def g2 : GroupEntry := { id := 102, title := "blocked group", is_forum := false, topics := [] }

/-- Initial cycle state of the C1 scenario: empty store, two working
groups, zero counters. -/
def stC1 : CycleState :=
  { sent_count := 0, failed_count := 0, db := {}, working := [g1, g2], sleeps := [] }

/-- First cycle of the C1 scenario: one successful send and one failed
(permission) send. -/
def cycleC1 : CycleState :=
  runAccountCycle 7 15 stC1 [(g1, .sendOk []), (g2, .rpcError "CHAT_WRITE_FORBIDDEN")]

/-- Counterexample to C1 as stated: in a first cycle with exactly one
successful and one failed send, analytics total_sent increases by 1 but
analytics total_failed stays 0 (the failed attempt only increments the
in-memory failed counter), not 1 as the claim requires. -/
theorem one_success_one_failure_counterexample :
    cycleC1.sent_count = 1 ∧ cycleC1.failed_count = 1 ∧
    (get_user_analytics cycleC1.db 7).total_sent = 1 ∧
    (get_user_analytics cycleC1.db 7).total_failed = 0 := by decide

/-- Witness for the amended C1 theorem at a concrete non-forum group
and concrete failing message. -/
theorem send_attempt_stats_accounting_witness :
    ((processGroupSend 7 15 stC1 g1 (.sendOk [])).sent_count = stC1.sent_count + 1) ∧
    ((get_user_analytics (processGroupSend 7 15 stC1 g2 (.rpcError "CHAT_WRITE_FORBIDDEN")).db 7).total_failed =
      (get_user_analytics stC1.db 7).total_failed) :=
  ⟨((send_attempt_stats_accounting 7 15 stC1 g1).2.1 (by decide) []).1,
    (send_attempt_stats_accounting 7 15 stC1 g2).1 (.rpcError "CHAT_WRITE_FORBIDDEN")⟩

/-- Group entry of the C2 scenario. -/
def gC2 : GroupEntry := { id := 201, title := "target", is_forum := false, topics := [] }

/-- Initial cycle state of the C2 scenario. -/
def stC2 : CycleState :=
  { sent_count := 0, failed_count := 0, db := {}, working := [gC2], sleeps := [] }

/-- Counterexample to C2 as stated: a send error raised as an RPCError
whose message contains the substring "forbidden" does NOT remove the
group from the working set (the RPCError handler of `run_broadcast`
keeps every group), so the set is unchanged. -/
theorem forbidden_rpc_error_keeps_group :
    strIn "forbidden" (lowerChars "CHAT_WRITE_FORBIDDEN") = true ∧
    (processGroupSend 7 15 stC2 gC2 (.rpcError "CHAT_WRITE_FORBIDDEN")).working = [gC2] := by
  decide

lemma forbidden_is_permanent (msg : String)
    (h : strIn "forbidden" (lowerChars msg) = true) :
    isPermanentErr (lowerChars msg) = true := by
  unfold isPermanentErr permanentErrorKeywords
  simp only [List.any_cons, List.any_nil, Bool.or_eq_true]
  exact Or.inr (Or.inl h)

/-- Amended C2: the working set reacts to a send error depending on the
handler that catches it: an error of the RPCError kind never removes
the group regardless of its message; an error caught by the generic
exception handler removes the group exactly when its lowercased message
contains a permanent keyword (banned, forbidden, kicked, rights,
not enough) — in particular a "forbidden" message removes it and a
message with no permanent keyword, such as a plain timeout, leaves the
group in the working set for the next cycle. -/
theorem error_classification_working_set (uid : Int) (gmd : Nat) (st : CycleState)
    (g : GroupEntry) (msg : String) :
    ((processGroupSend uid gmd st g (.rpcError msg)).working = st.working)
    ∧ (strIn "forbidden" (lowerChars msg) = true →
        (processGroupSend uid gmd st g (.otherError msg)).working = st.working.erase g)
    ∧ (isPermanentErr (lowerChars msg) = false →
        (processGroupSend uid gmd st g (.otherError msg)).working = st.working) := by
  refine ⟨rfl, ?_, ?_⟩
  · intro h
    unfold processGroupSend
    dsimp only
    rw [forbidden_is_permanent msg h]
    simp
  · intro h
    unfold processGroupSend
    dsimp only
    rw [h]
    simp

/-- Witness for the amended C2 theorem: a generic "forbidden" error
removes the concrete group, a generic timeout error keeps it. -/
theorem error_classification_working_set_witness :
    ((processGroupSend 7 15 stC2 gC2 (.otherError "CHAT_WRITE_FORBIDDEN")).working =
      List.erase stC2.working gC2) ∧
    ((processGroupSend 7 15 stC2 gC2 (.otherError "Connection timeout")).working =
      stC2.working) :=
  ⟨(error_classification_working_set 7 15 stC2 gC2 "CHAT_WRITE_FORBIDDEN").2.1 (by decide),
    (error_classification_working_set 7 15 stC2 gC2 "Connection timeout").2.2 (by decide)⟩

/-- State after a send attempt on which the telethon client raised the
rate-limit error `FloodWaitError` asking for a 30-second wait.  The
exception is a subclass of the telethon `RPCError`, so it is caught by
the RPCError handler of `run_broadcast` (main.py lines 1949-1978); the
`except FloodWait` branch at lines 1933-1947, the one that would sleep
the signalled duration plus 2 seconds, catches the pyrogram exception,
which the telethon send calls never raise. -/
def rateLimitedAttempt : CycleState :=
  processGroupSend 7 15 stC2 gC2
    (.rpcError "A wait of 30 seconds is required (caused by ForwardMessagesRequest)")

/-- C5 exhibit: a real rate-limited send attempt — a telethon
FloodWaitError signalling a 30-second wait, which arrives as an
RPCError — is counted as failed and the group is kept for the next
cycle, but the engine records NO sleep at all before the next send:
the claimed sleep of at least W seconds never happens, because the
branch implementing it is dead code for the telethon send client. -/
theorem rate_limit_rpc_error_no_sleep :
    rateLimitedAttempt.failed_count = stC2.failed_count + 1 ∧
    rateLimitedAttempt.working = stC2.working ∧
    rateLimitedAttempt.sleeps = stC2.sleeps := by decide

/-- One restricted-group record produced by the pre-broadcast analyzer
`check_group` in `run_broadcast` (main.py lines 1505-1586): reason is
one of "Write forbidden", "Not a member", "No send permission", or the
forum-mode skip notice. -/
structure RestrictedEntry where
  id : Int
  title : String
  reason : String
  deriving Repr, DecidableEq

/-- main.py lines 1611-1622: build `all_groups_combined` from the
usable and restricted groups of the pre-broadcast analysis — each
restricted group is re-tagged with `is_forum := false` and no topics —
and then apply the broadcast-mode filter again to the combined list. -/
def combineModeFiltered (broadcast_mode : String) (usable_groups : List GroupEntry)
    (restricted_groups : List RestrictedEntry) : List GroupEntry :=
  let all_groups_combined := usable_groups ++
    restricted_groups.map (fun r => { id := r.id, title := r.title, is_forum := false, topics := [] })
  if broadcast_mode == "groups_only" then all_groups_combined.filter (fun g => !g.is_forum)
  else if broadcast_mode == "forums_only" then all_groups_combined.filter (fun g => g.is_forum)
  else all_groups_combined

/-- Restricted record of a forum group that the analyzer classified as
no-send-permission. -/
def restrictedForum : RestrictedEntry :=
  { id := 301, title := "some forum", reason := "No send permission" }

/-- Counterexample to C9 as stated: in forums_only mode a group
classified as restricted is NOT included in the mode-filtered target
list — the combine step re-tags it as non-forum, so the forums-only
filter drops it and it never produces a failed send attempt. -/
theorem restricted_forum_dropped_in_forums_only_mode :
    combineModeFiltered "forums_only" [] [restrictedForum] = [] := by decide

/-- Amended C9: in groups_only and both modes every group classified as
restricted by the pre-broadcast analyzer is still included (re-tagged
as a non-forum entry with no topics) in the mode-filtered target list
handed to the cycle engine; only in forums_only mode are restricted
groups excluded, because the combine step tags them `is_forum=false`
and the mode filter then removes them. -/
theorem restricted_groups_remain_targets (broadcast_mode : String)
    (usable_groups : List GroupEntry) (restricted_groups : List RestrictedEntry)
    (r : RestrictedEntry) (hr : r ∈ restricted_groups)
    (hm : broadcast_mode ≠ "forums_only") :
    ({ id := r.id, title := r.title, is_forum := false, topics := [] } : GroupEntry) ∈
      combineModeFiltered broadcast_mode usable_groups restricted_groups := by
  unfold combineModeFiltered
  dsimp only
  have hmem : ({ id := r.id, title := r.title, is_forum := false, topics := [] } : GroupEntry) ∈
      usable_groups ++ restricted_groups.map
        (fun r => { id := r.id, title := r.title, is_forum := false, topics := [] }) :=
    List.mem_append_right _ (List.mem_map_of_mem _ hr)
  by_cases h1 : (broadcast_mode == "groups_only") = true
  · rw [if_pos h1]
    exact List.mem_filter.mpr ⟨hmem, rfl⟩
  · rw [if_neg (by simpa using h1)]
    have h2 : (broadcast_mode == "forums_only") = false := by
      simpa using hm
    rw [if_neg (by simp [h2])]
    exact hmem

/-- Witness for the amended C9 theorem: in both mode the concrete
restricted forum record is a member of the mode-filtered list. -/
theorem restricted_groups_remain_targets_witness :
    ({ id := restrictedForum.id, title := restrictedForum.title,
       is_forum := false, topics := [] } : GroupEntry) ∈
      combineModeFiltered "both" [] [restrictedForum] :=
  restricted_groups_remain_targets "both" [] [restrictedForum] restrictedForum
    (by decide) (by decide)

/-- database.py `delete_user_fully` (lines 1531-1563): run
`delete_many` for the user id over exactly the collections named in the
source list — users, accounts, ad_pointers, ad_delays,
group_msg_delays, cycle_timeouts, broadcast_states, broadcast_logs,
broadcast_activity, target_groups, logger_status, logger_failures,
temp_data, groups_cache.  The `forum_groups` collection is not in that
list, and `analytics` is intentionally excluded. -/
def delete_user_fully (db : DB) (user_id : Int) : DB :=
  { db with
    users := db.users.filter (fun d => !(d.user_id == user_id)),
    accounts := db.accounts.filter (fun d => !(d.user_id == user_id)),
    ad_pointers := db.ad_pointers.filter (fun d => !(d.user_id == user_id)),
    ad_delays := db.ad_delays.filter (fun d => !(d.user_id == user_id)),
    group_msg_delays := db.group_msg_delays.filter (fun d => !(d.user_id == user_id)),
    cycle_timeouts := db.cycle_timeouts.filter (fun d => !(d.user_id == user_id)),
    broadcast_states := db.broadcast_states.filter (fun d => !(d.user_id == user_id)),
    broadcast_logs := db.broadcast_logs.filter (fun d => !(d.user_id == user_id)),
    broadcast_activity := db.broadcast_activity.filter (fun d => !(d.user_id == user_id)),
    target_groups := db.target_groups.filter (fun d => !(d.user_id == user_id)),
    logger_status := db.logger_status.filter (fun d => !(d.user_id == user_id)),
    logger_failures := db.logger_failures.filter (fun d => !(d.user_id == user_id)),
    temp_data := db.temp_data.filter (fun d => !(d.user_id == user_id)),
    groups_cache := db.groups_cache.filter (fun d => !(d.user_id == user_id)) }

/-- Database with one document per collection for user 7, including a
forum group and an analytics record. -/
def dbC3 : DB :=
  { users := [{ user_id := 7 }],
    accounts := [{ user_id := 7 }],
    ad_pointers := [{ user_id := 7 }],
    ad_delays := [{ user_id := 7 }],
    group_msg_delays := [{ user_id := 7 }],
    cycle_timeouts := [{ user_id := 7 }],
    broadcast_states := [{ user_id := 7 }],
    broadcast_logs := [{ user_id := 7 }],
    broadcast_activity := [{ user_id := 7 }],
    target_groups := [{ user_id := 7, group_id := 41 }],
    forum_groups := [{ user_id := 7, group_id := 55 }],
    logger_status := [{ user_id := 7 }],
    logger_failures := [{ user_id := 7 }],
    temp_data := [{ user_id := 7 }],
    groups_cache := [{ user_id := 7 }],
    analytics := [{ user_id := 7, total_sent := 12 }] }

/-- Result of the full wipe on the C3 database. -/
def dbC3del : DB := delete_user_fully dbC3 7

/-- C3 exhibit: after `delete_user_fully`, every collection of the
source list is empty of user-7 documents and analytics is preserved as
the claim says, but the forum-groups document of user 7 remains —
`forum_groups` is missing from the collection list of the function,
contradicting its own docstring (delete all data related to the user,
analytics preserved). -/
theorem delete_user_fully_misses_forum_groups :
    dbC3del.users = [] ∧ dbC3del.accounts = [] ∧ dbC3del.ad_pointers = [] ∧
    dbC3del.ad_delays = [] ∧ dbC3del.group_msg_delays = [] ∧ dbC3del.cycle_timeouts = [] ∧
    dbC3del.broadcast_states = [] ∧ dbC3del.broadcast_logs = [] ∧
    dbC3del.broadcast_activity = [] ∧ dbC3del.target_groups = [] ∧
    dbC3del.logger_status = [] ∧ dbC3del.logger_failures = [] ∧
    dbC3del.temp_data = [] ∧ dbC3del.groups_cache = [] ∧
    dbC3del.analytics = dbC3.analytics ∧
    dbC3del.forum_groups = [{ user_id := 7, group_id := 55 }] := by decide

/-- database.py `get_logger_status` (lines 979-990): returns a Python
dictionary with the two keys is_started and is_active, both taken from
the stored document (is_started falling back to is_active, then false)
or both false when no document exists.  The dictionary is modelled as
its key-value list because callers test its truthiness. -/
def get_logger_status (db : DB) (user_id : Int) : List (String × Bool) :=
  match db.logger_status.find? (fun d => d.user_id == user_id) with
  | some doc =>
      let is_started := doc.is_started.getD (doc.is_active.getD false)
      [("is_started", is_started), ("is_active", is_started)]
  | none => [("is_started", false), ("is_active", false)]

/-- Python truthiness of an optional string: `None` and the empty
string are falsy. -/
def pyTruthyOptStr : Option String → Bool
  | none => false
  | some s => !s.isEmpty

/-- View returned by database.py `get_user_post_link` (lines 451-466). -/
structure PostLinkData where
  post_link : Option String
  saved_from_peer : Option String
  saved_msg_id : Option Int
  message_source : String
  deriving Repr, DecidableEq

/-- database.py `get_user_post_link` (lines 451-466). -/
def get_user_post_link (db : DB) (user_id : Int) : Option PostLinkData :=
  match db.findUser user_id with
  | some user =>
      some { post_link := user.post_link, saved_from_peer := user.saved_from_peer,
             saved_msg_id := user.saved_msg_id,
             message_source := user.message_source.getD "saved_messages" }
  | none => none

/-- database.py `get_user_accounts` (lines 269-276). -/
def get_user_accounts (db : DB) (user_id : Int) : List AccountDoc :=
  db.accounts.filter (fun d => d.user_id == user_id)

/-- Environment of a start request that the decision depends on but the
store does not hold: whether the first account's session decrypted and
its Saved Messages could be fetched, and how many usable saved messages
were found. -/
structure StartEnv where
  fetch_ok : Bool
  saved_msgs_len : Nat
  deriving Repr, DecidableEq

/-- Outcome of `start_broadcast_callback` (main.py lines 5440-5597):
either one of its reject paths (which do not create a broadcast task)
or the path that creates the task and writes `running=true`. -/
inductive StartDecision where
  | rejectedPostLinkNotSet
  | rejectedAlreadyRunning
  | rejectedNotEnoughSaved
  | rejectedNoAccounts
  | rejectedLoggerNotStarted
  | started
  deriving Repr, DecidableEq

/-- main.py `start_broadcast_callback` (lines 5440-5597), the guard
sequence of the start-broadcast button: post-link-mode sanity check,
already-running check, saved-messages count check, accounts check, the
logger-bot check `if not db.get_logger_status(uid)` (Python truthiness
of the returned dictionary), then task creation. -/
def start_broadcast_callback (db : DB) (uid : Int) (env : StartEnv) : StartDecision :=
  let pld := get_user_post_link db uid
  let postLinkBlocked :=
    match pld with
    | some d => (d.message_source == "post_link") &&
        (!(pyTruthyOptStr d.post_link) || !(pyTruthyOptInt d.saved_msg_id))
    | none => false
  if postLinkBlocked then .rejectedPostLinkNotSet
  else if (get_broadcast_state db uid).running then .rejectedAlreadyRunning
  else
    let user_msg_count := get_user_saved_messages_count db uid
    let accounts := get_user_accounts db uid
    if !accounts.isEmpty && env.fetch_ok && ((env.saved_msgs_len : Int) < user_msg_count) then
      .rejectedNotEnoughSaved
    else if accounts.isEmpty then .rejectedNoAccounts
    else if (get_logger_status db uid).isEmpty then .rejectedLoggerNotStarted
    else .started

lemma get_logger_status_nonempty (db : DB) (uid : Int) :
    (get_logger_status db uid).isEmpty = false := by
  unfold get_logger_status
  cases db.logger_status.find? (fun d => d.user_id == uid) <;> rfl

/-- Database for the C4 exhibit: user 1 has one hosted account and a
logger-status document that explicitly records is_started = false. -/
def dbC4 : DB :=
  { accounts := [{ user_id := 1, phone_number := "+10000000001" }],
    logger_status := [{ user_id := 1, is_active := some false, is_started := some false }] }

/-- Environment for the C4 exhibit: the saved-messages fetch succeeds
and finds enough messages. -/
def envC4 : StartEnv := { fetch_ok := true, saved_msgs_len := 5 }

/-- C4 exhibit: the logger-bot guard of `start_broadcast_callback` is
dead code — `db.get_logger_status(uid)` always returns a two-key
dictionary, which is truthy, so `if not db.get_logger_status(uid)`
never fires for any database state; in particular a user whose stored
logger status records is_started = false still gets a broadcast task
created. -/
theorem logger_guard_never_blocks_start :
    (∀ (db : DB) (uid : Int) (env : StartEnv),
      start_broadcast_callback db uid env ≠ .rejectedLoggerNotStarted) ∧
    start_broadcast_callback dbC4 1 envC4 = .started := by
  constructor
  · intro db uid env
    unfold start_broadcast_callback
    dsimp only
    split
    · simp
    · split
      · simp
      · split
        · simp
        · split
          · simp
          · split
            · next hE => rw [get_logger_status_nonempty] at hE; cases hE
            · simp
  · decide

end AzAds
